import Mathlib

/-
Verification of the Game of Life implementation in john_conways.py and
main.py.  The Python code is shallowly embedded below: the grid is a list
of columns (the source indexes grid[x][y]); the per-tick scan of
Grid.update is a fold over the scan positions carrying the mutable state
of the loop body (the old grid, the freshly allocated new grid, the
running alive counter, the local life_chance threshold and the index of
the next random draw).  The call random.randint(1, life_chance) is
modelled by 1 + rng k % life_chance for an arbitrary draw stream
rng : Nat -> Nat, which ranges over exactly the values 1..life_chance and
is forced to 1 when life_chance = 1, as randint is.
-/

set_option maxHeartbeats 1000000

namespace Life

/-- A cell of the grid (class Cell, john_conways.py): one is_alive flag. -/
structure Cell where
  is_alive : Bool
deriving DecidableEq, Repr

/-- The 8 Moore-neighborhood offsets, as listed in Cell.check_neighbors. -/
def directions : List (Int × Int) :=
  [(-1, -1), (-1, 0), (-1, 1), (0, -1), (0, 1), (1, -1), (1, 0), (1, 1)]

/-- Read grid[x][y].is_alive; an out-of-range index reads as a dead cell. -/
def getCell (grid : List (List Cell)) (x y : Nat) : Bool :=
  ((grid.getD x []).getD y (Cell.mk false)).is_alive

/-- Write grid[x][y].is_alive = b (no effect on an out-of-range index). -/
def setCell (grid : List (List Cell)) (x y : Nat) (b : Bool) : List (List Cell) :=
  grid.set x ((grid.getD x []).set y (Cell.mk b))

/-- The bounds test 0 <= nx < len(grid) and 0 <= ny < len(grid[0]) of
Cell.check_neighbors line 59; len(grid[0]) is modelled by headD, matching
the short-circuit that never evaluates grid[0] on an empty grid. -/
def inBounds (grid : List (List Cell)) (nx ny : Int) : Bool :=
  decide (0 ≤ nx ∧ nx < (grid.length : Int) ∧
    0 ≤ ny ∧ ny < ((grid.headD []).length : Int))

/-- One iteration of the neighbor-counting loop of Cell.check_neighbors. -/
def nstep (grid : List (List Cell)) (x y : Int) (count : Nat) (d : Int × Int) : Nat :=
  if inBounds grid (x + d.1) (y + d.2) then
    if getCell grid (x + d.1).toNat (y + d.2).toNat then count + 1 else count
  else count

/-- Cell.check_neighbors (john_conways.py lines 39-62). -/
def check_neighbors (grid : List (List Cell)) (x y : Int) : Nat :=
  directions.foldl (nstep grid x y) 0

/-- Specification-side count: how many of the 8 Moore offsets land in
bounds on an alive cell. -/
def neighborCountSpec (grid : List (List Cell)) (x y : Int) : Nat :=
  (directions.filter (fun d =>
    inBounds grid (x + d.1) (y + d.2) &&
      getCell grid (x + d.1).toNat (y + d.2).toNat)).length

/-- Class Grid (john_conways.py lines 65-92). -/
structure Grid where
  width : Nat
  height : Nat
  cell_size : Nat
  grid : List (List Cell)
  alive_count : Nat
  spawing : Bool
deriving DecidableEq, Repr

/-- The all-dead width x height cell array built in Grid.__init__ line 90
and again at the top of Grid.update line 117. -/
def mkCells (width height : Nat) : List (List Cell) :=
  (List.range width).map (fun _ => (List.range height).map (fun _ => Cell.mk false))

/-- Grid.__init__ (john_conways.py lines 78-92). -/
def Grid.init (width height cell_size : Nat) : Grid :=
  { width := width, height := height, cell_size := cell_size,
    grid := mkCells width height, alive_count := 0, spawing := false }

/-- The mutable state of the scan loop inside Grid.update: the grid being
read (and mutated by spawning), the new grid being written, the running
new_alive_count, the local life_chance, and the index of the next random
draw. -/
structure ScanState where
  old : List (List Cell)
  new : List (List Cell)
  count : Nat
  life_chance : Nat
  k : Nat
deriving DecidableEq, Repr

/-- The body of the double loop of Grid.update (john_conways.py lines
121-134) for one position p, mirrored branch for branch: the random draw,
the neighbor count against the current old grid, the survival rule for an
alive cell, the birth rule for a dead cell, the spawn branch that mutates
the old grid and increments life_chance, and the alive-count check on the
just-written new cell. -/
def stepCell (spawing : Bool) (rng : Nat → Nat) (s : ScanState) (p : Nat × Nat) : ScanState :=
  let x := p.1
  let y := p.2
  let rand_num := 1 + rng s.k % s.life_chance
  let neighbors := check_neighbors s.old (x : Int) (y : Int)
  if getCell s.old x y then
    let newAlive := neighbors == 2 || neighbors == 3
    { old := s.old, new := setCell s.new x y newAlive,
      count := s.count + (if newAlive then 1 else 0),
      life_chance := s.life_chance, k := s.k + 1 }
  else
    let newAlive := neighbors == 3
    if rand_num = 1 ∧ s.life_chance < 1000 ∧ spawing = true then
      { old := setCell s.old x y true, new := setCell s.new x y newAlive,
        count := s.count + (if newAlive then 1 else 0),
        life_chance := s.life_chance + 1, k := s.k + 1 }
    else
      { old := s.old, new := setCell s.new x y newAlive,
        count := s.count + (if newAlive then 1 else 0),
        life_chance := s.life_chance, k := s.k + 1 }

/-- The scan order of Grid.update: x from 0 to width-1, inner y from 0 to
height-1. -/
def positions (w h : Nat) : List (Nat × Nat) :=
  (List.range w).flatMap (fun x => (List.range h).map (fun y => (x, y)))

/-- The final loop state of one Grid.update call, starting from the fresh
all-dead new grid, new_alive_count = 0 and life_chance = 1 (lines
117-119). -/
def updateState (g : Grid) (rng : Nat → Nat) : ScanState :=
  (positions g.width g.height).foldl (stepCell g.spawing rng)
    { old := g.grid, new := mkCells g.width g.height, count := 0, life_chance := 1, k := 0 }

/-- Grid.update (john_conways.py lines 112-137): run the scan, then
install the new grid and the new alive count (lines 136-137). -/
def Grid.update (g : Grid) (rng : Nat → Nat) : Grid :=
  { g with grid := (updateState g rng).new, alive_count := (updateState g rng).count }

/-- The value Grid.update writes into the new grid at one position:
survival for an alive cell, birth for a dead one (lines 125-128). -/
def lifeRule (grid : List (List Cell)) (x y : Nat) : Bool :=
  let neighbors := check_neighbors grid (x : Int) (y : Int)
  if getCell grid x y then neighbors == 2 || neighbors == 3 else neighbors == 3

/-- The number of alive cells in a cell array. -/
def countAlive (grid : List (List Cell)) : Nat :=
  (grid.map (fun row => row.countP (fun c => c.is_alive))).sum

/-- The cell array has exactly w columns of h cells each, as every grid
built by Grid.__init__ or Grid.update does. -/
def Rect (grid : List (List Cell)) (w h : Nat) : Prop :=
  grid.length = w ∧ ∀ row ∈ grid, row.length = h

/-- handle_mouse_input (main.py lines 18-31) for one sampled frame with
the primary button down at pixel (mx, my): divide by cell_size, bounds
check, and toggle the cell; alive_count is not touched. -/
def handle_mouse_input (g : Grid) (mx my : Nat) : Grid :=
  let grid_x := mx / g.cell_size
  let grid_y := my / g.cell_size
  if grid_x < g.width ∧ grid_y < g.height then
    { g with grid := setCell g.grid grid_x grid_y (!getCell g.grid grid_x grid_y) }
  else g

/-- pygame event-type and key constants used by process_input. -/
def KEYDOWN : Nat := 768

def K_SPACE : Nat := 32

def K_EQUALS : Nat := 61

def K_MINUS : Nat := 45

def K_s : Nat := 115

/-- A pygame event as far as process_input inspects it. -/
structure Event where
  etype : Nat
  key : Nat
deriving DecidableEq, Repr

/-- The loop-level state process_input reads and writes: the flip_flop
latch, the paused flag, the simulation speed, and the spawing flag of the
game_world grid it mutates. -/
structure LoopState where
  flip_flop : Nat
  paused : Bool
  simulation_speed : Int
  spawing : Bool
deriving DecidableEq, Repr

/-- process_input (main.py lines 34-62), mirrored branch for branch. -/
def process_input (ev : Event) (s : LoopState) : LoopState :=
  if ev.etype = KEYDOWN then
    if ev.key = K_SPACE then { s with paused := !s.paused }
    else if ev.key = K_EQUALS then
      { s with simulation_speed := min (s.simulation_speed + 5) 120 }
    else if ev.key = K_MINUS then
      { s with simulation_speed := max (s.simulation_speed - 5) 5 }
    else if ev.key = K_s then
      if s.flip_flop = 1 then { s with spawing := false, flip_flop := 2 }
      else { s with spawing := true, flip_flop := 1 }
    else s
  else s

/-- The initial loop state of main (main.py lines 95-108): flip_flop = 1,
paused = True, simulation_speed = 10, and the grid starts with
spawing = False. -/
def initLoopState : LoopState :=
  { flip_flop := 1, paused := true, simulation_speed := 10, spawing := false }

/-- The key-down event for the spawn-toggle key s. -/
def sKeyEvent : Event :=
  { etype := KEYDOWN, key := K_s }

/-! ### List access helper lemmas -/

theorem getD_set_self {α : Type} (l : List α) (i : Nat) (a d : α) (h : i < l.length) :
    (l.set i a).getD i d = a := by
  simp [List.getD, List.getElem?_set_self, h]

theorem getD_set_ne {α : Type} (l : List α) (i j : Nat) (a d : α) (h : i ≠ j) :
    (l.set i a).getD j d = l.getD j d := by
  simp [List.getD, List.getElem?_set_ne h]

theorem getD_oob {α : Type} (l : List α) (i : Nat) (d : α) (h : l.length ≤ i) :
    l.getD i d = d := by
  simp [List.getD, List.getElem?_eq_none h]

/-! ### setCell and countAlive helper lemmas -/

theorem setCell_length (g : List (List Cell)) (x y : Nat) (b : Bool) :
    (setCell g x y b).length = g.length := by
  simp [setCell]

theorem setCell_rowlen (g : List (List Cell)) (x y : Nat) (b : Bool) (i : Nat) :
    ((setCell g x y b).getD i []).length = (g.getD i []).length := by
  unfold setCell
  by_cases hx : x < g.length
  · by_cases hix : x = i
    · subst hix
      rw [getD_set_self _ _ _ _ hx]
      simp
    · rw [getD_set_ne _ _ _ _ _ hix]
  · rw [List.set_eq_of_length_le (Nat.le_of_not_lt hx)]

theorem getCell_setCell_ne (g : List (List Cell)) (a b x y : Nat) (v : Bool)
    (h : ¬(x = a ∧ y = b)) :
    getCell (setCell g a b v) x y = getCell g x y := by
  unfold getCell setCell
  by_cases hxa : a = x
  · subst hxa
    by_cases ha : a < g.length
    · rw [getD_set_self _ _ _ _ ha]
      have hyb : b ≠ y := fun hby => h ⟨rfl, hby.symm⟩
      rw [getD_set_ne _ _ _ _ _ hyb]
    · rw [List.set_eq_of_length_le (Nat.le_of_not_lt ha)]
  · rw [getD_set_ne _ _ _ _ _ hxa]

theorem getCell_setCell_self (g : List (List Cell)) (x y : Nat) (v : Bool)
    (hx : x < g.length) (hy : y < (g.getD x []).length) :
    getCell (setCell g x y v) x y = v := by
  unfold getCell setCell
  rw [getD_set_self _ _ _ _ hx, getD_set_self _ _ _ _ hy]

theorem countP_set_row (r : List Cell) (y : Nat) (c : Cell)
    (hy : y < r.length) (hdead : (r.getD y (Cell.mk false)).is_alive = false) :
    (r.set y c).countP (fun cc => cc.is_alive) =
      r.countP (fun cc => cc.is_alive) + (if c.is_alive then 1 else 0) := by
  induction r generalizing y with
  | nil => simp at hy
  | cons hd tl ih =>
    cases y with
    | zero =>
      simp only [List.getD_cons_zero] at hdead
      simp only [List.set_cons_zero, List.countP_cons, hdead]
      cases hc : c.is_alive <;> simp
    | succ n =>
      simp only [List.getD_cons_succ] at hdead
      have hn : n < tl.length := by simpa using hy
      simp only [List.set_cons_succ, List.countP_cons, ih n hn hdead]
      cases hc : hd.is_alive <;> cases hcc : c.is_alive <;> simp <;> omega

theorem countAlive_setCell (g : List (List Cell)) (x y : Nat) (v : Bool)
    (hx : x < g.length) (hy : y < (g.getD x []).length)
    (hdead : getCell g x y = false) :
    countAlive (setCell g x y v) = countAlive g + (if v then 1 else 0) := by
  induction g generalizing x with
  | nil => simp at hx
  | cons hd tl ih =>
    cases x with
    | zero =>
      have hstep : setCell (hd :: tl) 0 y v = (hd.set y (Cell.mk v)) :: tl := rfl
      rw [hstep]
      unfold countAlive
      simp only [List.map_cons, List.sum_cons]
      have hy2 : y < hd.length := by simpa using hy
      have hdead2 : (hd.getD y (Cell.mk false)).is_alive = false := by
        simpa [getCell] using hdead
      rw [countP_set_row hd y (Cell.mk v) hy2 hdead2]
      cases v <;> simp <;> omega
    | succ n =>
      have hstep : setCell (hd :: tl) (n + 1) y v = hd :: setCell tl n y v := rfl
      rw [hstep]
      unfold countAlive
      simp only [List.map_cons, List.sum_cons]
      have hn : n < tl.length := by simpa using hx
      have hy2 : y < (tl.getD n []).length := by simpa using hy
      have hdead2 : getCell tl n y = false := by simpa [getCell] using hdead
      have := ih n hn hy2 hdead2
      unfold countAlive at this
      omega


theorem stepCell_new (sp : Bool) (rng : Nat → Nat) (s : ScanState) (p : Nat × Nat) :
    (stepCell sp rng s p).new = setCell s.new p.1 p.2 (lifeRule s.old p.1 p.2) := by
  unfold stepCell lifeRule
  by_cases hb : getCell s.old p.1 p.2
  · simp [hb]
  · simp only [hb, Bool.false_eq_true, if_false]
    split <;> rfl

theorem stepCell_count (sp : Bool) (rng : Nat → Nat) (s : ScanState) (p : Nat × Nat) :
    (stepCell sp rng s p).count = s.count + (if lifeRule s.old p.1 p.2 then 1 else 0) := by
  unfold stepCell lifeRule
  by_cases hb : getCell s.old p.1 p.2
  · simp [hb]
  · simp only [hb, Bool.false_eq_true, if_false]
    split <;> rfl

theorem stepCell_false_old (rng : Nat → Nat) (s : ScanState) (p : Nat × Nat) :
    (stepCell false rng s p).old = s.old := by
  unfold stepCell
  by_cases hb : getCell s.old p.1 p.2
  · simp [hb]
  · simp [hb]

theorem stepCell_false_lc (rng : Nat → Nat) (s : ScanState) (p : Nat × Nat) :
    (stepCell false rng s p).life_chance = s.life_chance := by
  unfold stepCell
  by_cases hb : getCell s.old p.1 p.2
  · simp [hb]
  · simp [hb]

theorem stepCell_rng_irrel (rng1 rng2 : Nat → Nat) (s : ScanState) (p : Nat × Nat) :
    stepCell false rng1 s p = stepCell false rng2 s p := by
  unfold stepCell
  by_cases hb : getCell s.old p.1 p.2
  · simp [hb]
  · simp [hb]

theorem stepCell_old_lc (sp : Bool) (rng : Nat → Nat) (s : ScanState) (p : Nat × Nat) :
    ((stepCell sp rng s p).old = s.old ∧ (stepCell sp rng s p).life_chance = s.life_chance) ∨
      (getCell s.old p.1 p.2 = false ∧ s.life_chance < 1000 ∧
        (stepCell sp rng s p).old = setCell s.old p.1 p.2 true ∧
        (stepCell sp rng s p).life_chance = s.life_chance + 1) := by
  unfold stepCell
  by_cases hb : getCell s.old p.1 p.2
  · simp [hb]
  · simp only [hb, Bool.false_eq_true, if_false]
    split
    · rename_i hcond
      right
      exact ⟨by simpa using hb, hcond.2.1, rfl, rfl⟩
    · left
      exact ⟨rfl, rfl⟩

/-! ### mkCells and positions lemmas -/

theorem mkCells_length (w h : Nat) : (mkCells w h).length = w := by
  simp [mkCells]

theorem mkCells_rowlen (w h i : Nat) (hi : i < w) :
    ((mkCells w h).getD i []).length = h := by
  simp [mkCells, List.getD, List.get?_eq_getElem?, List.getElem?_replicate, hi]

theorem getCell_mkCells (w h x y : Nat) : getCell (mkCells w h) x y = false := by
  simp only [getCell, mkCells, List.getD, List.get?_eq_getElem?, List.map_const', List.map_const,
    List.length_range, List.getElem?_replicate]
  split
  · simp only [Option.getD_some, List.getElem?_replicate]
    split <;> rfl
  · rfl

theorem countAlive_mkCells (w h : Nat) : countAlive (mkCells w h) = 0 := by
  simp [countAlive, mkCells, List.map_map, Function.comp, List.countP_eq_zero]

theorem mem_positions (w h : Nat) (x y : Nat) :
    (x, y) ∈ positions w h ↔ x < w ∧ y < h := by
  simp [positions, List.mem_flatMap, List.mem_map, List.mem_range]

theorem nodup_positions (w h : Nat) : (positions w h).Nodup := by
  have hp : positions w h = (List.range w).product (List.range h) := rfl
  rw [hp]
  exact (List.nodup_range w).product (List.nodup_range h)

theorem positions_zero (w h : Nat) (hz : w = 0 ∨ h = 0) : positions w h = [] := by
  rcases hz with hz | hz
  · subst hz; rfl
  · subst hz; simp [positions]

/-! ### Rect lemmas -/

theorem getD_mem {α : Type} (l : List α) (i : Nat) (d : α) (h : i < l.length) :
    l.getD i d ∈ l := by
  induction l generalizing i with
  | nil => simp at h
  | cons a t ih =>
    cases i with
    | zero => simp
    | succ n =>
      simp only [List.getD_cons_succ]
      exact List.mem_cons_of_mem _ (ih n (by simpa using h))

theorem Rect_rowlen (g : List (List Cell)) (w h i : Nat) (hr : Rect g w h) (hi : i < w) :
    (g.getD i []).length = h :=
  hr.2 _ (getD_mem g i [] (by rw [hr.1]; exact hi))

theorem Rect_setCell (g : List (List Cell)) (w h x y : Nat) (v : Bool)
    (hr : Rect g w h) : Rect (setCell g x y v) w h := by
  by_cases hx : x < g.length
  · constructor
    · rw [setCell_length]
      exact hr.1
    · intro row hrow
      unfold setCell at hrow
      rcases List.mem_or_eq_of_mem_set hrow with hmem | heq
      · exact hr.2 row hmem
      · rw [heq, List.length_set]
        exact hr.2 _ (getD_mem g x [] hx)
  · unfold setCell
    rw [List.set_eq_of_length_le (Nat.le_of_not_lt hx)]
    exact hr

/-! ### Scan-fold lemmas -/

theorem foldl_new_length (sp : Bool) (rng : Nat → Nat) (ps : List (Nat × Nat)) (s : ScanState) :
    ((ps.foldl (stepCell sp rng) s).new).length = s.new.length := by
  induction ps generalizing s with
  | nil => rfl
  | cons p t ih =>
    simp only [List.foldl_cons]
    rw [ih (stepCell sp rng s p), stepCell_new, setCell_length]

theorem foldl_new_rowlen (sp : Bool) (rng : Nat → Nat) (ps : List (Nat × Nat)) (s : ScanState)
    (i : Nat) :
    (((ps.foldl (stepCell sp rng) s).new).getD i []).length = (s.new.getD i []).length := by
  induction ps generalizing s with
  | nil => rfl
  | cons p t ih =>
    simp only [List.foldl_cons]
    rw [ih (stepCell sp rng s p), stepCell_new, setCell_rowlen]

theorem foldl_new_notmem (sp : Bool) (rng : Nat → Nat) (ps : List (Nat × Nat)) (s : ScanState)
    (x y : Nat) (h : (x, y) ∉ ps) :
    getCell ((ps.foldl (stepCell sp rng) s).new) x y = getCell s.new x y := by
  induction ps generalizing s with
  | nil => rfl
  | cons p t ih =>
    simp only [List.foldl_cons]
    have hp : (x, y) ∉ t := fun hm => h (List.mem_cons_of_mem _ hm)
    rw [ih (stepCell sp rng s p) hp, stepCell_new]
    apply getCell_setCell_ne
    rintro ⟨hx, hy⟩
    apply h
    have : p = (x, y) := by
      rcases p with ⟨a, b⟩
      simp at hx hy
      rw [hx, hy]
    rw [this]
    exact List.mem_cons_self _ _

theorem foldl_false_old (rng : Nat → Nat) (ps : List (Nat × Nat)) (s : ScanState) :
    ((ps.foldl (stepCell false rng) s).old) = s.old := by
  induction ps generalizing s with
  | nil => rfl
  | cons p t ih =>
    simp only [List.foldl_cons]
    rw [ih (stepCell false rng s p), stepCell_false_old]

theorem foldl_rng_irrel (rng1 rng2 : Nat → Nat) (ps : List (Nat × Nat)) (s : ScanState) :
    ps.foldl (stepCell false rng1) s = ps.foldl (stepCell false rng2) s := by
  induction ps generalizing s with
  | nil => rfl
  | cons p t ih =>
    simp only [List.foldl_cons]
    rw [stepCell_rng_irrel rng1 rng2]
    exact ih _

theorem foldl_false_getCell (rng : Nat → Nat) (ps : List (Nat × Nat)) (s : ScanState)
    (x y : Nat) (hnd : ps.Nodup) (hmem : (x, y) ∈ ps)
    (hx : x < s.new.length) (hy : y < (s.new.getD x []).length) :
    getCell ((ps.foldl (stepCell false rng) s).new) x y = lifeRule s.old x y := by
  induction ps generalizing s with
  | nil => simp at hmem
  | cons p t ih =>
    simp only [List.foldl_cons]
    rcases List.mem_cons.mp hmem with heq | hmem2
    · subst heq
      have hnotmem : (x, y) ∉ t := (List.nodup_cons.mp hnd).1
      rw [foldl_new_notmem _ _ _ _ _ _ hnotmem, stepCell_new]
      exact getCell_setCell_self _ _ _ _ hx hy
    · have hnd2 := (List.nodup_cons.mp hnd).2
      have hx2 : x < (stepCell false rng s p).new.length := by
        rw [stepCell_new, setCell_length]
        exact hx
      have hy2 : y < ((stepCell false rng s p).new.getD x []).length := by
        rw [stepCell_new, setCell_rowlen]
        exact hy
      rw [ih (stepCell false rng s p) hnd2 hmem2 hx2 hy2, stepCell_false_old]

theorem foldl_countAlive (sp : Bool) (rng : Nat → Nat) (ps : List (Nat × Nat)) (s : ScanState)
    (hnd : ps.Nodup)
    (hbd : ∀ q ∈ ps, q.1 < s.new.length ∧ q.2 < (s.new.getD q.1 []).length ∧
      getCell s.new q.1 q.2 = false)
    (hinv : countAlive s.new = s.count) :
    countAlive ((ps.foldl (stepCell sp rng) s).new) = (ps.foldl (stepCell sp rng) s).count := by
  induction ps generalizing s with
  | nil => exact hinv
  | cons p t ih =>
    simp only [List.foldl_cons]
    have hp := hbd p (List.mem_cons_self p t)
    have hnd2 := (List.nodup_cons.mp hnd).2
    apply ih (stepCell sp rng s p) hnd2
    · intro q hq
      have hqp : ¬(q.1 = p.1 ∧ q.2 = p.2) := by
        rintro ⟨h1, h2⟩
        have hqp2 : q = p := by
          rcases q with ⟨a, b⟩
          rcases p with ⟨c, d⟩
          simp at h1 h2
          rw [h1, h2]
        exact (List.nodup_cons.mp hnd).1 (hqp2 ▸ hq)
      have hq0 := hbd q (List.mem_cons_of_mem _ hq)
      rw [stepCell_new]
      refine ⟨?_, ?_, ?_⟩
      · rw [setCell_length]
        exact hq0.1
      · rw [setCell_rowlen]
        exact hq0.2.1
      · rw [getCell_setCell_ne _ _ _ _ _ _ hqp]
        exact hq0.2.2
    · rw [stepCell_new, stepCell_count, countAlive_setCell _ _ _ _ hp.1 hp.2.1 hp.2.2, hinv]

theorem foldl_lc (sp : Bool) (rng : Nat → Nat) (ps : List (Nat × Nat)) (s : ScanState)
    (w h : Nat) (hbd : ∀ q ∈ ps, q.1 < w ∧ q.2 < h)
    (hrect : Rect s.old w h) (hlc : s.life_chance ≤ 1000) :
    Rect ((ps.foldl (stepCell sp rng) s).old) w h ∧
      (ps.foldl (stepCell sp rng) s).life_chance ≤ 1000 ∧
      (ps.foldl (stepCell sp rng) s).life_chance + countAlive s.old =
        s.life_chance + countAlive ((ps.foldl (stepCell sp rng) s).old) := by
  induction ps generalizing s with
  | nil => exact ⟨hrect, hlc, rfl⟩
  | cons p t ih =>
    simp only [List.foldl_cons]
    have hp := hbd p (List.mem_cons_self p t)
    have hbd2 : ∀ q ∈ t, q.1 < w ∧ q.2 < h := fun q hq => hbd q (List.mem_cons_of_mem _ hq)
    rcases stepCell_old_lc sp rng s p with ⟨ho, hl⟩ | ⟨hdead, hlt, ho, hl⟩
    · have hres := ih (stepCell sp rng s p) hbd2 (by rw [ho]; exact hrect) (by rw [hl]; exact hlc)
      rw [ho] at hres
      rw [hl] at hres
      exact hres
    · have hx : p.1 < s.old.length := by
        rw [hrect.1]
        exact hp.1
      have hy : p.2 < (s.old.getD p.1 []).length := by
        rw [Rect_rowlen _ _ _ _ hrect hp.1]
        exact hp.2
      have hrect2 : Rect (stepCell sp rng s p).old w h := by
        rw [ho]
        exact Rect_setCell _ _ _ _ _ _ hrect
      have hlc2 : (stepCell sp rng s p).life_chance ≤ 1000 := by
        rw [hl]
        omega
      have hca : countAlive (stepCell sp rng s p).old = countAlive s.old + 1 := by
        rw [ho, countAlive_setCell _ _ _ _ hx hy hdead]
        simp
      have hres := ih (stepCell sp rng s p) hbd2 hrect2 hlc2
      refine ⟨hres.1, hres.2.1, ?_⟩
      have harith := hres.2.2
      rw [hca, hl] at harith
      omega

/-! ### check_neighbors lemmas (claim C2) -/

theorem nstep_le (grid : List (List Cell)) (x y : Int) (c : Nat) (d : Int × Int) :
    nstep grid x y c d ≤ c + 1 := by
  unfold nstep
  split
  · split <;> omega
  · omega

theorem nstep_oob (grid : List (List Cell)) (x y : Int) (d : Int × Int)
    (h : inBounds grid (x + d.1) (y + d.2) = false) (c : Nat) :
    nstep grid x y c d = c := by
  unfold nstep
  simp [h]

theorem foldl_nstep_le (grid : List (List Cell)) (x y : Int) (l : List (Int × Int)) (c : Nat) :
    l.foldl (nstep grid x y) c ≤ c + l.length := by
  induction l generalizing c with
  | nil => simp
  | cons d t ih =>
    simp only [List.foldl_cons, List.length_cons]
    have h1 := nstep_le grid x y c d
    have h2 := ih (nstep grid x y c d)
    omega

theorem foldl_nstep_filter (grid : List (List Cell)) (x y : Int) (l : List (Int × Int)) (c : Nat) :
    l.foldl (nstep grid x y) c =
      c + (l.filter (fun d =>
        inBounds grid (x + d.1) (y + d.2) &&
          getCell grid (x + d.1).toNat (y + d.2).toNat)).length := by
  induction l generalizing c with
  | nil => simp
  | cons d t ih =>
    simp only [List.foldl_cons, List.filter_cons]
    have hstep : nstep grid x y c d =
        c + (if (inBounds grid (x + d.1) (y + d.2) &&
          getCell grid (x + d.1).toNat (y + d.2).toNat) then 1 else 0) := by
      unfold nstep
      by_cases hb : inBounds grid (x + d.1) (y + d.2)
      · by_cases ha : getCell grid (x + d.1).toNat (y + d.2).toNat <;> simp [hb, ha]
      · simp [hb]
    rw [ih (nstep grid x y c d), hstep]
    by_cases hc : (inBounds grid (x + d.1) (y + d.2) &&
        getCell grid (x + d.1).toNat (y + d.2).toNat) = true
    · rw [if_pos hc, if_pos hc]
      simp
      omega
    · rw [if_neg hc, if_neg hc]
      simp

theorem check_neighbors_eq_spec (grid : List (List Cell)) (x y : Int) :
    check_neighbors grid x y = neighborCountSpec grid x y := by
  unfold check_neighbors neighborCountSpec
  have h := foldl_nstep_filter grid x y directions 0
  omega

theorem check_neighbors_le_eight (grid : List (List Cell)) (x y : Int) :
    check_neighbors grid x y ≤ 8 := by
  unfold check_neighbors
  have h := foldl_nstep_le grid x y directions 0
  have hl : directions.length = 8 := rfl
  omega

theorem check_corner_tl (grid : List (List Cell)) :
    check_neighbors grid 0 0 ≤ 3 := by
  have h1 : inBounds grid (0 + (-1 : Int)) (0 + (-1 : Int)) = false := by
    rw [inBounds, decide_eq_false_iff_not]
    omega
  have h2 : inBounds grid (0 + (-1 : Int)) (0 + (0 : Int)) = false := by
    rw [inBounds, decide_eq_false_iff_not]
    omega
  have h3 : inBounds grid (0 + (-1 : Int)) (0 + (1 : Int)) = false := by
    rw [inBounds, decide_eq_false_iff_not]
    omega
  have h4 : inBounds grid (0 + (0 : Int)) (0 + (-1 : Int)) = false := by
    rw [inBounds, decide_eq_false_iff_not]
    omega
  have h6 : inBounds grid (0 + (1 : Int)) (0 + (-1 : Int)) = false := by
    rw [inBounds, decide_eq_false_iff_not]
    omega
  simp only [check_neighbors, directions, List.foldl_cons, List.foldl_nil]
  rw [nstep_oob grid 0 0 (-1, -1) h1, nstep_oob grid 0 0 (-1, 0) h2,
    nstep_oob grid 0 0 (-1, 1) h3, nstep_oob grid 0 0 (0, -1) h4,
    nstep_oob grid 0 0 (1, -1) h6]
  have b1 := nstep_le grid 0 0 0 (0, 1)
  have b2 := nstep_le grid 0 0 (nstep grid 0 0 0 (0, 1)) (1, 0)
  have b3 := nstep_le grid 0 0 (nstep grid 0 0 (nstep grid 0 0 0 (0, 1)) (1, 0)) (1, 1)
  omega

theorem check_corner_bl (grid : List (List Cell)) :
    check_neighbors grid ((grid.length : Int) - 1) 0 ≤ 3 := by
  set w : Int := (grid.length : Int) with hw
  have h1 : inBounds grid (w - 1 + (-1 : Int)) (0 + (-1 : Int)) = false := by
    rw [inBounds, decide_eq_false_iff_not]
    omega
  have h4 : inBounds grid (w - 1 + (0 : Int)) (0 + (-1 : Int)) = false := by
    rw [inBounds, decide_eq_false_iff_not]
    omega
  have h6 : inBounds grid (w - 1 + (1 : Int)) (0 + (-1 : Int)) = false := by
    rw [inBounds, decide_eq_false_iff_not]
    omega
  have h7 : inBounds grid (w - 1 + (1 : Int)) (0 + (0 : Int)) = false := by
    rw [inBounds, decide_eq_false_iff_not]
    omega
  have h8 : inBounds grid (w - 1 + (1 : Int)) (0 + (1 : Int)) = false := by
    rw [inBounds, decide_eq_false_iff_not]
    omega
  simp only [check_neighbors, directions, List.foldl_cons, List.foldl_nil]
  rw [nstep_oob grid (w - 1) 0 (-1, -1) h1, nstep_oob grid (w - 1) 0 (0, -1) h4,
    nstep_oob grid (w - 1) 0 (1, -1) h6, nstep_oob grid (w - 1) 0 (1, 0) h7,
    nstep_oob grid (w - 1) 0 (1, 1) h8]
  have b1 := nstep_le grid (w - 1) 0 0 (-1, 0)
  have b2 := nstep_le grid (w - 1) 0 (nstep grid (w - 1) 0 0 (-1, 0)) (-1, 1)
  have b3 := nstep_le grid (w - 1) 0
    (nstep grid (w - 1) 0 (nstep grid (w - 1) 0 0 (-1, 0)) (-1, 1)) (0, 1)
  omega

theorem check_corner_tr (grid : List (List Cell)) :
    check_neighbors grid 0 (((grid.headD []).length : Int) - 1) ≤ 3 := by
  set h : Int := ((grid.headD []).length : Int) with hh
  have h1 : inBounds grid (0 + (-1 : Int)) (h - 1 + (-1 : Int)) = false := by
    rw [inBounds, decide_eq_false_iff_not]
    omega
  have h2 : inBounds grid (0 + (-1 : Int)) (h - 1 + (0 : Int)) = false := by
    rw [inBounds, decide_eq_false_iff_not]
    omega
  have h3 : inBounds grid (0 + (-1 : Int)) (h - 1 + (1 : Int)) = false := by
    rw [inBounds, decide_eq_false_iff_not]
    omega
  have h5 : inBounds grid (0 + (0 : Int)) (h - 1 + (1 : Int)) = false := by
    rw [inBounds, decide_eq_false_iff_not]
    omega
  have h8 : inBounds grid (0 + (1 : Int)) (h - 1 + (1 : Int)) = false := by
    rw [inBounds, decide_eq_false_iff_not]
    omega
  simp only [check_neighbors, directions, List.foldl_cons, List.foldl_nil]
  rw [nstep_oob grid 0 (h - 1) (-1, -1) h1, nstep_oob grid 0 (h - 1) (-1, 0) h2,
    nstep_oob grid 0 (h - 1) (-1, 1) h3, nstep_oob grid 0 (h - 1) (0, 1) h5,
    nstep_oob grid 0 (h - 1) (1, 1) h8]
  have b1 := nstep_le grid 0 (h - 1) 0 (0, -1)
  have b2 := nstep_le grid 0 (h - 1) (nstep grid 0 (h - 1) 0 (0, -1)) (1, -1)
  have b3 := nstep_le grid 0 (h - 1)
    (nstep grid 0 (h - 1) (nstep grid 0 (h - 1) 0 (0, -1)) (1, -1)) (1, 0)
  omega

theorem check_corner_br (grid : List (List Cell)) :
    check_neighbors grid ((grid.length : Int) - 1) (((grid.headD []).length : Int) - 1) ≤ 3 := by
  set w : Int := (grid.length : Int) with hw
  set h : Int := ((grid.headD []).length : Int) with hh
  have h3 : inBounds grid (w - 1 + (-1 : Int)) (h - 1 + (1 : Int)) = false := by
    rw [inBounds, decide_eq_false_iff_not]
    omega
  have h5 : inBounds grid (w - 1 + (0 : Int)) (h - 1 + (1 : Int)) = false := by
    rw [inBounds, decide_eq_false_iff_not]
    omega
  have h6 : inBounds grid (w - 1 + (1 : Int)) (h - 1 + (-1 : Int)) = false := by
    rw [inBounds, decide_eq_false_iff_not]
    omega
  have h7 : inBounds grid (w - 1 + (1 : Int)) (h - 1 + (0 : Int)) = false := by
    rw [inBounds, decide_eq_false_iff_not]
    omega
  have h8 : inBounds grid (w - 1 + (1 : Int)) (h - 1 + (1 : Int)) = false := by
    rw [inBounds, decide_eq_false_iff_not]
    omega
  simp only [check_neighbors, directions, List.foldl_cons, List.foldl_nil]
  rw [nstep_oob grid (w - 1) (h - 1) (-1, 1) h3, nstep_oob grid (w - 1) (h - 1) (0, 1) h5,
    nstep_oob grid (w - 1) (h - 1) (1, -1) h6, nstep_oob grid (w - 1) (h - 1) (1, 0) h7,
    nstep_oob grid (w - 1) (h - 1) (1, 1) h8]
  have b1 := nstep_le grid (w - 1) (h - 1) 0 (-1, -1)
  have b2 := nstep_le grid (w - 1) (h - 1) (nstep grid (w - 1) (h - 1) 0 (-1, -1)) (-1, 0)
  have b3 := nstep_le grid (w - 1) (h - 1)
    (nstep grid (w - 1) (h - 1) (nstep grid (w - 1) (h - 1) 0 (-1, -1)) (-1, 0)) (0, -1)
  omega

/-! ### Concrete inputs for witnesses and counterexamples -/

/-- The constant-zero draw stream: every randint draw comes out lowest. -/
def rng0 : Nat → Nat := fun _ => 0

/-- The identity draw stream. -/
def rngId : Nat → Nat := fun n => n

/-- A 2 x 2 grid with all four cells alive (the block still-life),
spawning disabled. -/
def blockGrid : Grid :=
  { width := 2, height := 2, cell_size := 8,
    grid := [[Cell.mk true, Cell.mk true], [Cell.mk true, Cell.mk true]],
    alive_count := 4, spawing := false }

/-- A 1 x 1 grid holding a single dead cell, with spawning enabled. -/
def oneDeadGrid : Grid :=
  { width := 1, height := 1, cell_size := 8, grid := [[Cell.mk false]],
    alive_count := 0, spawing := true }

/-- A 1 x 2 grid with both cells dead, with spawning enabled. -/
def twoDeadGrid : Grid :=
  { width := 1, height := 2, cell_size := 8, grid := [[Cell.mk false, Cell.mk false]],
    alive_count := 0, spawing := true }

/-- A 1 x 1 grid holding a single dead cell, spawning disabled. -/
def mouseGrid : Grid :=
  { width := 1, height := 1, cell_size := 8, grid := [[Cell.mk false]],
    alive_count := 0, spawing := false }

/-! ### Shared high-level helper lemmas -/

/-- After any update, the stored alive count equals the number of alive
cells of the installed grid. -/
theorem update_count_eq (g : Grid) (rng : Nat → Nat) :
    (g.update rng).alive_count = countAlive (g.update rng).grid := by
  have h1 : (g.update rng).alive_count = (updateState g rng).count := rfl
  have h2 : (g.update rng).grid = (updateState g rng).new := rfl
  rw [h1, h2]
  unfold updateState
  refine (foldl_countAlive g.spawing rng _ _ (nodup_positions _ _) ?_ ?_).symm
  · intro q hq
    rcases q with ⟨a, b⟩
    have hm := (mem_positions g.width g.height a b).mp hq
    refine ⟨?_, ?_, ?_⟩
    · rw [mkCells_length]
      exact hm.1
    · rw [mkCells_rowlen _ _ _ hm.1]
      exact hm.2
    · exact getCell_mkCells _ _ _ _
  · exact countAlive_mkCells _ _

/-! ### Claim C1 -/

/-- C1: with spawning disabled, after one update a cell is alive exactly
when it was alive with 2 or 3 alive neighbors in the prior generation, or
dead with exactly 3 alive neighbors there; all neighbor counts are taken
on the snapshot of the prior generation. -/
theorem claim_C1 (g : Grid) (rng : Nat → Nat) (hs : g.spawing = false)
    (x y : Nat) (hx : x < g.width) (hy : y < g.height) :
    getCell (g.update rng).grid x y = true ↔
      ((getCell g.grid x y = true ∧
          (check_neighbors g.grid (x : Int) (y : Int) = 2 ∨
            check_neighbors g.grid (x : Int) (y : Int) = 3)) ∨
        (getCell g.grid x y = false ∧ check_neighbors g.grid (x : Int) (y : Int) = 3)) := by
  have h2 : (g.update rng).grid = (updateState g rng).new := rfl
  rw [h2]
  unfold updateState
  rw [hs]
  have hx1 : x < (mkCells g.width g.height).length := by
    rw [mkCells_length]
    exact hx
  have hy1 : y < ((mkCells g.width g.height).getD x []).length := by
    rw [mkCells_rowlen _ _ _ hx]
    exact hy
  rw [foldl_false_getCell rng _ _ x y (nodup_positions _ _)
    ((mem_positions _ _ x y).mpr ⟨hx, hy⟩) hx1 hy1]
  unfold lifeRule
  by_cases hc : getCell g.grid x y = true
  · simp [hc]
  · simp at hc
    simp [hc]

/-- Witness for C1 at the block still-life: the corner cell of a 2 x 2
all-alive block has 3 alive neighbors and stays alive. -/
theorem claim_C1_witness :
    blockGrid.spawing = false ∧ 0 < blockGrid.width ∧ 0 < blockGrid.height ∧
      (getCell (blockGrid.update rng0).grid 0 0 = true ↔
        ((getCell blockGrid.grid 0 0 = true ∧
            (check_neighbors blockGrid.grid 0 0 = 2 ∨
              check_neighbors blockGrid.grid 0 0 = 3)) ∨
          (getCell blockGrid.grid 0 0 = false ∧ check_neighbors blockGrid.grid 0 0 = 3))) :=
  ⟨rfl, by decide, by decide, claim_C1 blockGrid rng0 rfl 0 0 (by decide) (by decide)⟩

/-! ### Claim C3 -/

/-- C3: immediately after update() returns, alive_count equals the exact
number of alive cells of the new grid, with or without spawning. -/
theorem claim_C3 (g : Grid) (rng : Nat → Nat) :
    (g.update rng).alive_count = countAlive (g.update rng).grid :=
  update_count_eq g rng

/-! ### Claim C9 -/

/-- C9: update is total by construction, and on a zero-sized grid it
degenerates to a no-op: the installed grid is the empty cell array of the
stored dimensions and the alive count is 0. -/
theorem claim_C9 (g : Grid) (rng : Nat → Nat) (hz : g.width = 0 ∨ g.height = 0) :
    (g.update rng).alive_count = 0 ∧ (g.update rng).grid = mkCells g.width g.height ∧
      countAlive (g.update rng).grid = 0 := by
  have hstate : updateState g rng =
      { old := g.grid, new := mkCells g.width g.height, count := 0, life_chance := 1, k := 0 } := by
    unfold updateState
    rw [positions_zero g.width g.height hz]
    rfl
  have h1 : (g.update rng).alive_count = (updateState g rng).count := rfl
  have h2 : (g.update rng).grid = (updateState g rng).new := rfl
  rw [h1, h2, hstate]
  exact ⟨rfl, rfl, countAlive_mkCells _ _⟩

/-- Witness for C9: a 0 x 5 grid. -/
theorem claim_C9_witness :
    ((Grid.init 0 5 8).width = 0 ∨ (Grid.init 0 5 8).height = 0) ∧
      ((Grid.init 0 5 8).update rng0).alive_count = 0 ∧
      ((Grid.init 0 5 8).update rng0).grid = mkCells (Grid.init 0 5 8).width (Grid.init 0 5 8).height ∧
      countAlive ((Grid.init 0 5 8).update rng0).grid = 0 :=
  ⟨Or.inl rfl, claim_C9 (Grid.init 0 5 8) rng0 (Or.inl rfl)⟩

/-! ### Claim C10 -/

/-- C10: with spawning disabled, the result of update does not depend on
the random draws: any two draw streams give the same new grid and the
same alive count. -/
theorem claim_C10 (g : Grid) (rng1 rng2 : Nat → Nat) (hs : g.spawing = false) :
    g.update rng1 = g.update rng2 := by
  unfold Grid.update updateState
  rw [hs, foldl_rng_irrel rng1 rng2]

/-- Witness for C10: the block grid under the identity stream and the
zero stream. -/
theorem claim_C10_witness :
    blockGrid.spawing = false ∧ blockGrid.update rngId = blockGrid.update rng0 :=
  ⟨rfl, claim_C10 blockGrid rngId rng0 rfl⟩

/-! ### Claim C2 -/

/-- C2: check_neighbors equals the number of Moore-neighborhood offsets
landing in bounds on an alive cell (out-of-bounds reads as dead, no
wraparound), is always at most 8, and is at most 3 at each of the four
corners; it is a pure function of the grid and the position by
construction. -/
theorem claim_C2 (grid : List (List Cell)) (x y : Int) :
    check_neighbors grid x y = neighborCountSpec grid x y ∧
      check_neighbors grid x y ≤ 8 ∧
      check_neighbors grid 0 0 ≤ 3 ∧
      check_neighbors grid ((grid.length : Int) - 1) 0 ≤ 3 ∧
      check_neighbors grid 0 (((grid.headD []).length : Int) - 1) ≤ 3 ∧
      check_neighbors grid ((grid.length : Int) - 1) (((grid.headD []).length : Int) - 1) ≤ 3 :=
  ⟨check_neighbors_eq_spec grid x y, check_neighbors_le_eight grid x y,
    check_corner_tl grid, check_corner_bl grid, check_corner_tr grid, check_corner_br grid⟩

/-! ### Claim C4 -/

/-- Counterexample to C4: on a 1 x 1 grid with its single cell dead and
spawning enabled, the spawn draw necessarily succeeds (randint(1,1) = 1):
the old grid is mutated to alive and life_chance is bumped to 2, yet the
cell is dead in the next generation, because the spawn writes only the
old grid and the new grid keeps the birth-rule value. -/
theorem claim_C4_counterexample :
    (updateState oneDeadGrid rng0).old = [[Cell.mk true]] ∧
      (updateState oneDeadGrid rng0).life_chance = 2 ∧
      getCell (oneDeadGrid.update rng0).grid 0 0 = false := by decide

/-- C4 (amended): when spawning is enabled and the draw of a dead cell
succeeds below the threshold, the cell is set alive in the old grid being
scanned (so later cells of the same pass can count it as a neighbor) and
life_chance is incremented, while the new generation value of the cell is
still determined solely by the birth rule. -/
theorem claim_C4_amended (rng : Nat → Nat) (s : ScanState) (x y : Nat)
    (hdead : getCell s.old x y = false)
    (hdraw : 1 + rng s.k % s.life_chance = 1)
    (hlc : s.life_chance < 1000) :
    (stepCell true rng s (x, y)).old = setCell s.old x y true ∧
      (stepCell true rng s (x, y)).life_chance = s.life_chance + 1 ∧
      (stepCell true rng s (x, y)).new =
        setCell s.new x y (check_neighbors s.old (x : Int) (y : Int) == 3) := by
  unfold stepCell
  simp only [hdead, Bool.false_eq_true, if_false]
  rw [if_pos ⟨hdraw, hlc, trivial⟩]
  exact ⟨rfl, rfl, rfl⟩

/-- A concrete scan state for the C4 witness: scanning a 1 x 1 all-dead
grid at the first cell with threshold 1. -/
def scanS0 : ScanState :=
  { old := [[Cell.mk false]], new := [[Cell.mk false]], count := 0, life_chance := 1, k := 0 }

/-- Witness for the amended C4 at a concrete scan state. -/
theorem claim_C4_witness :
    getCell scanS0.old 0 0 = false ∧
      1 + rng0 scanS0.k % scanS0.life_chance = 1 ∧
      scanS0.life_chance < 1000 ∧
      ((stepCell true rng0 scanS0 (0, 0)).old = setCell scanS0.old 0 0 true ∧
        (stepCell true rng0 scanS0 (0, 0)).life_chance = scanS0.life_chance + 1 ∧
        (stepCell true rng0 scanS0 (0, 0)).new =
          setCell scanS0.new 0 0 (check_neighbors scanS0.old 0 0 == 3)) :=
  ⟨by decide, by decide, by decide,
    claim_C4_amended rng0 scanS0 0 0 (by decide) (by decide) (by decide)⟩

/-! ### Claim C5 -/

/-- Counterexample to C5: on the 1 x 2 all-dead grid with spawning
enabled and the zero draw stream, the first update() call performs two
successful spawns and finishes with life_chance = 3; the second call on
the resulting grid finishes with life_chance = 3 again, not 5: the
threshold is a local variable re-initialized to 1 by every call, so
nothing escalates across the session. -/
theorem claim_C5_counterexample :
    (updateState twoDeadGrid rng0).life_chance = 3 ∧
      (updateState (twoDeadGrid.update rng0) rng0).life_chance = 3 := by decide

/-- C5 (amended): within a single update() call the threshold starts at
1, each successful spawn turns exactly one dead cell of the old grid
alive and increments the threshold by 1, and no spawn fires at or above
1000, so the final threshold is 1 plus the number of spawns of this call
and never exceeds 1000; it is not carried over to the next call. -/
theorem claim_C5_amended (g : Grid) (rng : Nat → Nat)
    (hr : Rect g.grid g.width g.height) :
    (updateState g rng).life_chance ≤ 1000 ∧
      (updateState g rng).life_chance + countAlive g.grid =
        1 + countAlive (updateState g rng).old := by
  unfold updateState
  have hbd : ∀ q ∈ positions g.width g.height, q.1 < g.width ∧ q.2 < g.height := by
    intro q hq
    rcases q with ⟨a, b⟩
    exact (mem_positions _ _ a b).mp hq
  have hres := foldl_lc g.spawing rng (positions g.width g.height)
    { old := g.grid, new := mkCells g.width g.height, count := 0, life_chance := 1, k := 0 }
    g.width g.height hbd hr (by show (1 : Nat) ≤ 1000; omega)
  exact ⟨hres.2.1, hres.2.2⟩

/-- Witness for the amended C5 on the 1 x 2 all-dead grid: two spawns
happen, and the final threshold 3 = 1 + 2 stays at most 1000. -/
theorem claim_C5_witness :
    Rect twoDeadGrid.grid twoDeadGrid.width twoDeadGrid.height ∧
      ((updateState twoDeadGrid rng0).life_chance ≤ 1000 ∧
        (updateState twoDeadGrid rng0).life_chance + countAlive twoDeadGrid.grid =
          1 + countAlive (updateState twoDeadGrid rng0).old) :=
  ⟨by constructor <;> decide, claim_C5_amended twoDeadGrid rng0 (by constructor <;> decide)⟩

/-! ### Claim C6 -/

/-- Counterexample to C6: toggling the single cell of a 1 x 1 grid by
mouse input makes the cell alive but leaves alive_count at 0, so the
invariant does not hold between the toggle and the next update. -/
theorem claim_C6_counterexample :
    countAlive (handle_mouse_input mouseGrid 0 0).grid = 1 ∧
      (handle_mouse_input mouseGrid 0 0).alive_count = 0 := by decide

/-- C6 (amended): the alive-count invariant holds after construction and
is re-established by every update(); it is not maintained by
handle_mouse_input, which toggles a cell without touching alive_count. -/
theorem claim_C6_amended (w h cs : Nat) (g : Grid) (rng : Nat → Nat) :
    (Grid.init w h cs).alive_count = countAlive (Grid.init w h cs).grid ∧
      (g.update rng).alive_count = countAlive (g.update rng).grid := by
  constructor
  · have hinit : (Grid.init w h cs).grid = mkCells w h := rfl
    rw [hinit, countAlive_mkCells]
    rfl
  · exact update_count_eq g rng

/-! ### Claim C7 -/

/-- The loop state after n presses of the s key from the initial program
state: the first press re-disables spawning and moves the latch to 2;
from then on presses alternate the flag. -/
theorem iterate_press (n : Nat) :
    (fun s => process_input sKeyEvent s)^[n] initLoopState =
      if n = 0 then initLoopState
      else if n % 2 = 0 then
        { flip_flop := 1, paused := true, simulation_speed := 10, spawing := true }
      else
        { flip_flop := 2, paused := true, simulation_speed := 10, spawing := false } := by
  induction n with
  | zero => rfl
  | succ m ih =>
    rw [Function.iterate_succ_apply', ih]
    by_cases hm : m = 0
    · subst hm
      decide
    · by_cases he : m % 2 = 0
      · rw [if_neg hm, if_pos he, if_neg (Nat.succ_ne_zero m),
          if_neg (by omega : ¬(m + 1) % 2 = 0)]
        decide
      · rw [if_neg hm, if_neg he, if_neg (Nat.succ_ne_zero m),
          if_pos (by omega : (m + 1) % 2 = 0)]
        decide

/-- Counterexample to C7: in the initial program state spawning is
disabled and the latch is 1, and the first press of s leaves spawning
disabled (the branch for flip_flop == 1 re-assigns False), so that press
does not invert the flag. -/
theorem claim_C7_counterexample :
    initLoopState.spawing = false ∧
      (process_input sKeyEvent initLoopState).spawing = false := by decide

/-- C7 (amended): every press after the first inverts the spawning flag
(a second press always undoes or re-does the flag of the press before
it), but the first press from the initial state is a no-op on the flag:
after n presses from the initial state, spawning is enabled exactly when
n is a nonzero even number. -/
theorem claim_C7_amended :
    (∀ s : LoopState,
      (process_input sKeyEvent (process_input sKeyEvent s)).spawing =
        !(process_input sKeyEvent s).spawing) ∧
      (∀ n : Nat,
        ((fun s => process_input sKeyEvent s)^[n] initLoopState).spawing =
          decide (n ≠ 0 ∧ n % 2 = 0)) := by
  constructor
  · intro s
    unfold process_input sKeyEvent
    by_cases h : s.flip_flop = 1 <;> simp [h, KEYDOWN, K_SPACE, K_EQUALS, K_MINUS, K_s]
  · intro n
    rw [iterate_press]
    by_cases hn : n = 0
    · subst hn
      decide
    · by_cases he : n % 2 = 0
      · rw [if_neg hn, if_pos he]
        simp [hn, he]
      · rw [if_neg hn, if_neg he]
        simp [hn, he]

/-! ### Claim C8 -/

/-- One event never drives the speed out of [5, 120]. -/
theorem process_input_speed_bounds (e : Event) (s : LoopState)
    (h5 : 5 ≤ s.simulation_speed) (h120 : s.simulation_speed ≤ 120) :
    5 ≤ (process_input e s).simulation_speed ∧
      (process_input e s).simulation_speed ≤ 120 := by
  unfold process_input
  split
  · split
    · exact ⟨h5, h120⟩
    · split
      · constructor
        · simp only [le_min_iff]
          omega
        · exact min_le_right _ _
      · split
        · constructor
          · exact le_max_right _ _
          · simp only [max_le_iff]
            omega
        · split
          · split
            · exact ⟨h5, h120⟩
            · exact ⟨h5, h120⟩
          · exact ⟨h5, h120⟩
  · exact ⟨h5, h120⟩

/-- A whole sequence of events never drives the speed out of [5, 120]. -/
theorem foldl_speed_bounds (evs : List Event) (s : LoopState)
    (h5 : 5 ≤ s.simulation_speed) (h120 : s.simulation_speed ≤ 120) :
    5 ≤ (evs.foldl (fun st e => process_input e st) s).simulation_speed ∧
      (evs.foldl (fun st e => process_input e st) s).simulation_speed ≤ 120 := by
  induction evs generalizing s with
  | nil => exact ⟨h5, h120⟩
  | cons e t ih =>
    simp only [List.foldl_cons]
    have hb := process_input_speed_bounds e s h5 h120
    exact ih (process_input e s) hb.1 hb.2

/-- C8: a speed-up key-down sets the speed to min(speed + 5, 120), a
speed-down key-down sets it to max(speed - 5, 5); at the bounds the speed
stays put, and any sequence of events keeps it within [5, 120]. -/
theorem claim_C8 (s : LoopState) (h5 : 5 ≤ s.simulation_speed)
    (h120 : s.simulation_speed ≤ 120) :
    (process_input { etype := KEYDOWN, key := K_EQUALS } s).simulation_speed =
        min (s.simulation_speed + 5) 120 ∧
      (process_input { etype := KEYDOWN, key := K_MINUS } s).simulation_speed =
        max (s.simulation_speed - 5) 5 ∧
      (s.simulation_speed = 120 →
        (process_input { etype := KEYDOWN, key := K_EQUALS } s).simulation_speed = 120) ∧
      (s.simulation_speed = 5 →
        (process_input { etype := KEYDOWN, key := K_MINUS } s).simulation_speed = 5) ∧
      ∀ evs : List Event,
        5 ≤ (evs.foldl (fun st e => process_input e st) s).simulation_speed ∧
          (evs.foldl (fun st e => process_input e st) s).simulation_speed ≤ 120 := by
  have hplus : (process_input { etype := KEYDOWN, key := K_EQUALS } s).simulation_speed =
      min (s.simulation_speed + 5) 120 := by
    unfold process_input
    simp [KEYDOWN, K_SPACE, K_EQUALS]
  have hminus : (process_input { etype := KEYDOWN, key := K_MINUS } s).simulation_speed =
      max (s.simulation_speed - 5) 5 := by
    unfold process_input
    simp [KEYDOWN, K_SPACE, K_EQUALS, K_MINUS]
  refine ⟨hplus, hminus, ?_, ?_, ?_⟩
  · intro h
    rw [hplus, h]
    decide
  · intro h
    rw [hminus, h]
    decide
  · intro evs
    exact foldl_speed_bounds evs s h5 h120

/-- A loop state with the speed at the upper clamp 120. -/
def speedState : LoopState :=
  { flip_flop := 1, paused := true, simulation_speed := 120, spawing := false }

/-- Witness for C8 at speed 120: the speed-up key leaves the speed at
120 = min(125, 120) and the speed-down key gives 115 = max(115, 5). -/
theorem claim_C8_witness :
    5 ≤ speedState.simulation_speed ∧ speedState.simulation_speed ≤ 120 ∧
      ((process_input { etype := KEYDOWN, key := K_EQUALS } speedState).simulation_speed =
          min (speedState.simulation_speed + 5) 120 ∧
        (process_input { etype := KEYDOWN, key := K_MINUS } speedState).simulation_speed =
          max (speedState.simulation_speed - 5) 5 ∧
        (speedState.simulation_speed = 120 →
          (process_input { etype := KEYDOWN, key := K_EQUALS } speedState).simulation_speed = 120) ∧
        (speedState.simulation_speed = 5 →
          (process_input { etype := KEYDOWN, key := K_MINUS } speedState).simulation_speed = 5) ∧
        ∀ evs : List Event,
          5 ≤ (evs.foldl (fun st e => process_input e st) speedState).simulation_speed ∧
            (evs.foldl (fun st e => process_input e st) speedState).simulation_speed ≤ 120) :=
  ⟨by decide, by decide, claim_C8 speedState (by decide) (by decide)⟩

end Life
